import Mathlib

/-!
# codex-consultant: the ask and review handlers

A shallow embedding of `src/codex-consultant.go`.

Modelling conventions.

* Go strings are modelled as Lean `String`s; `fmt.Sprintf` with `%s` / `%v`
  verbs is string concatenation, and `len(s) == 0` is `s = ""`.
* A Go `error` value is modelled by its message (`err.Error()`), which is what
  the `%v` verb prints; `Option String` is an `error` that may be `nil`.
* Everything outside the process is collected in a `World`: the non-ASCII part
  of the Unicode lower-case table used by `strings.ToLower`, the filesystem
  (`os.Stat`, `os.ReadFile`) and subprocess execution (`cmd.CombinedOutput`).
  A handler runs each distinct argument vector at most once, so a function
  from argument vectors to results loses no generality for one handler call.
* A handler returns, next to its two Go return values, the list of subprocess
  argument vectors it executed, in execution order.
-/

namespace CodexConsultant

/-! ## Tool-call requests and results (the part of `mcp-go` the handlers use) -/

/-- An argument of a tool call: a JSON string, or a JSON value of another type. -/
inductive ArgValue where
  | str (s : String)
  | other
deriving DecidableEq, Repr

/-- The request of a tool call: its named arguments. -/
structure CallToolRequest where
  arguments : List (String × ArgValue)
deriving Repr

/-- The value stored under `key`, if any (`args[key]`). -/
def CallToolRequest.lookup (request : CallToolRequest) (key : String) : Option ArgValue :=
  List.lookup key request.arguments

/-- `request.RequireString(key)`: the string stored under `key`; an error (here `none`,
the handlers discard the message) when the key is missing or its value is not a string. -/
def CallToolRequest.requireString (request : CallToolRequest) (key : String) : Option String :=
  match request.lookup key with
  | some (ArgValue.str s) => some s
  | some ArgValue.other => none
  | none => none

/-- `request.GetString(key, defaultValue)`: the string stored under `key`, or
`defaultValue` when the key is missing or its value is not a string. -/
def CallToolRequest.getString (request : CallToolRequest) (key : String)
    (defaultValue : String) : String :=
  match request.lookup key with
  | some (ArgValue.str s) => s
  | some ArgValue.other => defaultValue
  | none => defaultValue

/-- A tool result with a single text content item and the `IsError` flag. -/
structure CallToolResult where
  text : String
  isError : Bool
deriving DecidableEq, Repr

/-- `mcp.NewToolResultError(text)`. -/
def newToolResultError (text : String) : CallToolResult := ⟨text, true⟩

/-- `mcp.NewToolResultText(text)`. -/
def newToolResultText (text : String) : CallToolResult := ⟨text, false⟩

/-! ## The environment of a handler call -/

/-- What `cmd.CombinedOutput()` returns: the captured stdout+stderr and the error. -/
structure CmdResult where
  output : String
  err : Option String
deriving DecidableEq, Repr

deriving instance DecidableEq for Except

/-- The environment a handler runs in. -/
structure World where
  /-- `unicode.ToLower` on runes above `unicode.MaxASCII` (the `CaseRanges` table). -/
  lowerTable : Char → Char
  /-- `os.Stat(path)`: `none` when it returns an error, else `some info.IsDir()`. -/
  stat : String → Option Bool
  /-- `os.ReadFile(path)`: the error message or the file contents. -/
  readFile : String → Except String String
  /-- Running the argument vector `name :: args` with `CombinedOutput`. -/
  combinedOutput : List String → CmdResult

/-- The two Go return values of a handler and the subprocesses it ran, in order. -/
structure HandlerResult where
  result : CallToolResult
  err : Option String
  calls : List (List String)
deriving DecidableEq, Repr

/-! ## Library functions: `strings.TrimSpace`, `strings.ToLower`, `filepath.Clean` -/

/-- `unicode.IsSpace`: the Unicode `White_Space` property. -/
def isSpace (c : Char) : Bool :=
  let n := c.toNat
  (0x09 ≤ n && n ≤ 0x0d) || n == 0x20 || n == 0x85 || n == 0xa0 || n == 0x1680 ||
  (0x2000 ≤ n && n ≤ 0x200a) || n == 0x2028 || n == 0x2029 || n == 0x202f ||
  n == 0x205f || n == 0x3000

/-- `strings.TrimSpace`: drop leading and trailing white space. -/
def trimSpace (s : String) : String :=
  ⟨((s.data.dropWhile isSpace).reverse.dropWhile isSpace).reverse⟩

/-- `unicode.ToLower`: ASCII letters are shifted, other ASCII runes are kept, and
runes above `unicode.MaxASCII` go through the case table. -/
def toLowerRune (w : World) (c : Char) : Char :=
  if c.toNat ≤ 0x7f then
    if 'A'.toNat ≤ c.toNat ∧ c.toNat ≤ 'Z'.toNat then Char.ofNat (c.toNat + 32) else c
  else w.lowerTable c

/-- `strings.ToLower`: every rune mapped to its lower case. -/
def toLower (w : World) (s : String) : String :=
  ⟨s.data.map (toLowerRune w)⟩

/-- The elements of a path between its separators. -/
def splitOnSlash : List Char → List (List Char)
  | [] => [[]]
  | c :: cs =>
    match splitOnSlash cs with
    | [] => [[c]]
    | e :: es => if c = '/' then [] :: e :: es else (c :: e) :: es

/-- One element of the path processed by `filepath.Clean`; `out` holds the elements
kept so far, last one first. Empty and `.` elements are dropped; `..` removes the
element before it, is dropped at the root, and is kept at the start of a relative path. -/
def cleanStep ( rooted : Bool) (out : List (List Char)) (e : List Char) : List (List Char) :=
  if e = [] ∨ e = ['.'] then out
  else if e = ['.', '.'] then
    match out with
    | [] => if rooted then [] else [e]
    | top :: rest => if top = ['.', '.'] then e :: out else rest
  else e :: out

/-- `filepath.Clean` on a Unix path (separator `/`, no volume name). -/
def filepathClean (path : String) : String :=
  let rooted := path.data.head? = some '/'
  let out := ((splitOnSlash path.data).foldl (cleanStep rooted) []).reverse
  let body := List.intercalate ['/'] out
  if rooted then ⟨'/' :: body⟩
  else if body = [] then "." else ⟨body⟩

/-! ## The source functions -/

/-- `fileExists` (lines 173-181): the cleaned path can be stat-ed and is not a directory. -/
def fileExists (w : World) (path : String) : Bool :=
  let path := filepathClean path
  match w.stat path with
  | none => false
  | some isDir => !isDir

/-- `expandContext` (lines 160-170): the labelled file contents when `context` names a
file that is read without error, else `context` itself. -/
def expandContext (w : World) (context : String) : String :=
  if fileExists w context then
    match w.readFile context with
    | Except.ok content => "File: " ++ context ++ "\n\n" ++ content
    | Except.error _ => context
  else context

/-- The argument vector of `exec.CommandContext(ctx, "codex", "exec", "--model", model,
"--", instruction)`. -/
def codexCommand (model instruction : String) : List String :=
  ["codex", "exec", "--model", model, "--", instruction]

/-- `askCodexHandler` (lines 66-96). -/
def askCodexHandler (w : World) (request : CallToolRequest) : HandlerResult :=
  match request.requireString "prompt" with
  | none => ⟨newToolResultError "prompt is required", none, []⟩
  | some prompt =>
    let model := request.getString "model" "gpt-5-codex"
    let contextStr := request.getString "context" ""
    let fullPrompt :=
      if contextStr ≠ "" then
        "Context: " ++ expandContext w contextStr ++ "\n\nQuestion: " ++ prompt
      else prompt
    let cmd := codexCommand model fullPrompt
    let r := w.combinedOutput cmd
    match r.err with
    | some e =>
      ⟨newToolResultError ("Codex execution failed: " ++ e ++ "\nOutput: " ++ r.output),
        none, [cmd]⟩
    | none => ⟨newToolResultText r.output, none, [cmd]⟩

/-- The test of line 110 on `strings.ToLower(strings.TrimSpace(target))`. -/
def isSentinel (w : World) (target : String) : Bool :=
  let targetLower := toLower w (trimSpace target)
  targetLower == "current changes" || targetLower == "git diff"

/-- The argument vector of `git diff HEAD` (line 112). -/
def gitDiffHead : List String := ["git", "diff", "HEAD"]

/-- The argument vector of `git diff --staged` (line 119). -/
def gitDiffStaged : List String := ["git", "diff", "--staged"]

/-- Lines 106-139 of `codexReviewHandler`: the subprocesses run while resolving the
target, and either the tool result of an early return or the review content. -/
def resolveTarget (w : World) (target : String) :
    List (List String) × Except CallToolResult String :=
  if isSentinel w target then
    let r := w.combinedOutput gitDiffHead
    match r.err with
    | some e => ([gitDiffHead], Except.error (newToolResultError ("Failed to get git diff: " ++ e)))
    | none =>
      if r.output = "" then
        let r2 := w.combinedOutput gitDiffStaged
        match r2.err with
        | some e =>
          ([gitDiffHead, gitDiffStaged],
            Except.error (newToolResultError ("Failed to get staged git diff: " ++ e)))
        | none =>
          if r2.output = "" then
            ([gitDiffHead, gitDiffStaged],
              Except.error (newToolResultError "No git changes found to review"))
          else ([gitDiffHead, gitDiffStaged], Except.ok r2.output)
      else ([gitDiffHead], Except.ok r.output)
  else if fileExists w target then
    match w.readFile target with
    | Except.error e =>
      ([], Except.error (newToolResultError ("Failed to read file " ++ target ++ ": " ++ e)))
    | Except.ok content => ([], Except.ok ("File: " ++ target ++ "\n\n" ++ content))
  else ([], Except.ok target)

/-- The review instruction of line 142. -/
def reviewPrompt (focus reviewContent : String) : String :=
  "Please review the following code with focus on: " ++ focus ++
    ". Provide specific, actionable feedback.\n\n" ++ reviewContent

/-- `codexReviewHandler` (lines 98-157). -/
def codexReviewHandler (w : World) (request : CallToolRequest) : HandlerResult :=
  match request.requireString "target" with
  | none => ⟨newToolResultError "target is required", none, []⟩
  | some target =>
    let focus := request.getString "focus" "code quality, bugs, and best practices"
    match resolveTarget w target with
    | (calls, Except.error res) => ⟨res, none, calls⟩
    | (calls, Except.ok reviewContent) =>
      let cmd := codexCommand "gpt-5-codex" (reviewPrompt focus reviewContent)
      let r := w.combinedOutput cmd
      match r.err with
      | some e =>
        ⟨newToolResultError ("Codex review failed: " ++ e ++ "\nOutput: " ++ r.output),
          none, calls ++ [cmd]⟩
      | none => ⟨newToolResultText r.output, none, calls ++ [cmd]⟩

/-- The number of invocations of the external assistant among `calls`. -/
def assistantCalls (calls : List (List String)) : Nat :=
  (calls.filter (fun c => c.head? == some "codex")).length

/-- The text `part` occurs in `text` as a contiguous piece. -/
def includes (text part : String) : Prop := part.data <:+: text.data

instance (text part : String) : Decidable (includes text part) :=
  inferInstanceAs (Decidable (part.data <:+: text.data))

/-! ## Concrete environments used to instantiate the theorems -/

/-- A working directory with a file `notes.txt`, a file named `current changes`, a
file `secret.txt` that cannot be read and a directory `docs`; `git diff HEAD`,
`git diff --staged` and the assistant return the given results. -/
def demoWorld (unstaged staged assistant : CmdResult) : World where
  lowerTable := fun c => c
  stat := fun p =>
    if p = "notes.txt" ∨ p = "secret.txt" ∨ p = "current changes" then some false
    else if p = "docs" then some true
    else none
  readFile := fun p =>
    if p = "notes.txt" ∨ p = "./notes.txt" ∨ p = "current changes" then Except.ok "hello\n"
    else if p = "secret.txt" then Except.error "open secret.txt: permission denied"
    else if p = "docs" then Except.error "read docs: is a directory"
    else Except.error ("open " ++ p ++ ": no such file or directory")
  combinedOutput := fun argv =>
    if argv = gitDiffHead then unstaged
    else if argv = gitDiffStaged then staged
    else if argv.head? = some "codex" then assistant
    else ⟨"", some "exec: not found"⟩

/-- A subprocess that exits with status 0 after printing `out`. -/
def succeeds (out : String) : CmdResult := ⟨out, none⟩

/-- A subprocess that prints `out` and fails with the error `e`. -/
def fails (out e : String) : CmdResult := ⟨out, some e⟩

/-- The staged diff of the scenario of the specification. -/
def stagedDiff : String := "diff --git a/x.go b/x.go\n"

/-- No change in the work tree, one staged change, an assistant that answers. -/
def stagedWorld : World := demoWorld (succeeds "") (succeeds stagedDiff) (succeeds "LGTM\n")

/-- Neither unstaged nor staged changes. -/
def cleanWorld : World := demoWorld (succeeds "") (succeeds "") (succeeds "LGTM\n")

/-- The working directory is not a git repository and the assistant fails. -/
def brokenWorld : World :=
  demoWorld (fails "fatal: not a git repository\n" "exit status 128")
    (fails "fatal: not a git repository\n" "exit status 128")
    (fails "stream error\n" "exit status 1")

/-! ## Basic facts about requests and handlers -/

theorem getString_of_lookup_str (request : CallToolRequest) (key d s : String)
    (h : request.lookup key = some (ArgValue.str s)) : request.getString key d = s := by
  simp [CallToolRequest.getString, h]

theorem getString_of_lookup_none (request : CallToolRequest) (key d : String)
    (h : request.lookup key = none) : request.getString key d = d := by
  simp [CallToolRequest.getString, h]

theorem requireString_of_lookup_none (request : CallToolRequest) (key : String)
    (h : request.lookup key = none) : request.requireString key = none := by
  simp [CallToolRequest.requireString, h]

/-- The instruction `askCodexHandler` builds on lines 76-81. -/
theorem askCodexHandler_calls (w : World) (request : CallToolRequest) (prompt : String)
    (hp : request.requireString "prompt" = some prompt) :
    (askCodexHandler w request).calls =
      [codexCommand (request.getString "model" "gpt-5-codex")
        (if request.getString "context" "" ≠ "" then
          "Context: " ++ expandContext w (request.getString "context" "") ++
            "\n\nQuestion: " ++ prompt
         else prompt)] := by
  simp only [askCodexHandler, hp]
  split <;> rfl

/-- The handler after the target has been resolved to a review content. -/
theorem codexReviewHandler_calls (w : World) (request : CallToolRequest)
    (target reviewContent : String) (calls : List (List String))
    (ht : request.requireString "target" = some target)
    (hr : resolveTarget w target = (calls, Except.ok reviewContent)) :
    (codexReviewHandler w request).calls =
      calls ++ [codexCommand "gpt-5-codex"
        (reviewPrompt (request.getString "focus" "code quality, bugs, and best practices")
          reviewContent)] := by
  simp only [codexReviewHandler, ht, hr]
  split <;> rfl

/-- The handler when resolving the target ends in an early return. -/
theorem codexReviewHandler_early (w : World) (request : CallToolRequest)
    (target : String) (res : CallToolResult) (calls : List (List String))
    (ht : request.requireString "target" = some target)
    (hr : resolveTarget w target = (calls, Except.error res)) :
    codexReviewHandler w request = ⟨res, none, calls⟩ := by
  simp only [codexReviewHandler, ht, hr]

theorem isSentinel_of_eq (w : World) (target : String)
    (h : toLower w (trimSpace target) = "current changes" ∨
      toLower w (trimSpace target) = "git diff") : isSentinel w target = true := by
  simp only [isSentinel, Bool.or_eq_true, beq_iff_eq]
  exact h

/-- Resolving a sentinel target, by the outcome of the two diff commands. -/
theorem resolveTarget_sentinel (w : World) (target : String)
    (hs : isSentinel w target = true) :
    resolveTarget w target =
      match (w.combinedOutput gitDiffHead).err with
      | some e =>
        ([gitDiffHead], Except.error (newToolResultError ("Failed to get git diff: " ++ e)))
      | none =>
        if (w.combinedOutput gitDiffHead).output = "" then
          match (w.combinedOutput gitDiffStaged).err with
          | some e =>
            ([gitDiffHead, gitDiffStaged],
              Except.error (newToolResultError ("Failed to get staged git diff: " ++ e)))
          | none =>
            if (w.combinedOutput gitDiffStaged).output = "" then
              ([gitDiffHead, gitDiffStaged],
                Except.error (newToolResultError "No git changes found to review"))
            else ([gitDiffHead, gitDiffStaged], Except.ok (w.combinedOutput gitDiffStaged).output)
        else ([gitDiffHead], Except.ok (w.combinedOutput gitDiffHead).output) := by
  simp only [resolveTarget, hs, if_true]

/-- Resolving a target that is not a sentinel runs no subprocess. -/
theorem resolveTarget_not_sentinel (w : World) (target : String)
    (hs : isSentinel w target = false) :
    resolveTarget w target =
      if fileExists w target then
        match w.readFile target with
        | Except.error e =>
          ([], Except.error (newToolResultError ("Failed to read file " ++ target ++ ": " ++ e)))
        | Except.ok content => ([], Except.ok ("File: " ++ target ++ "\n\n" ++ content))
      else ([], Except.ok target) := by
  simp [resolveTarget, hs]

/-- The calls of the review handler are those of the resolution, followed by at most
one call of the assistant. -/
theorem codexReviewHandler_calls_cases (w : World) (request : CallToolRequest) (target : String)
    (ht : request.requireString "target" = some target) :
    (codexReviewHandler w request).calls = (resolveTarget w target).1 ∨
    ∃ reviewContent, (resolveTarget w target).2 = Except.ok reviewContent ∧
      (codexReviewHandler w request).calls =
        (resolveTarget w target).1 ++ [codexCommand "gpt-5-codex"
          (reviewPrompt (request.getString "focus" "code quality, bugs, and best practices")
            reviewContent)] := by
  rcases hr : resolveTarget w target with ⟨calls, res | content⟩
  · left
    rw [codexReviewHandler_early w request target res calls ht hr]
  · right
    exact ⟨content, rfl, codexReviewHandler_calls w request target content calls ht hr⟩

/-- Every subprocess run before a review content is obtained has succeeded. -/
theorem resolveTarget_ok_calls (w : World) (target content : String)
    (calls : List (List String))
    (hr : resolveTarget w target = (calls, Except.ok content)) :
    ∀ c ∈ calls, (w.combinedOutput c).err = none := by
  cases hs : isSentinel w target
  · rw [resolveTarget_not_sentinel w target hs] at hr
    have hcalls : calls = [] := by
      split_ifs at hr
      · split at hr <;> simp_all
      · simp_all
    simp [hcalls]
  · rw [resolveTarget_sentinel w target hs] at hr
    cases h1 : (w.combinedOutput gitDiffHead).err with
    | some e1 => simp [h1] at hr
    | none =>
      by_cases o1 : (w.combinedOutput gitDiffHead).output = ""
      · cases h2 : (w.combinedOutput gitDiffStaged).err with
        | some e2 => simp [h1, o1, h2] at hr
        | none =>
          by_cases o2 : (w.combinedOutput gitDiffStaged).output = ""
          · simp [h1, o1, h2, o2] at hr
          · simp only [h1, o1, h2, o2, if_true, if_false, Prod.mk.injEq] at hr
            rw [← hr.1]
            intro c hc
            simp only [List.mem_cons, List.mem_singleton, List.not_mem_nil, or_false] at hc
            rcases hc with hc | hc <;> subst hc <;> assumption
      · simp only [h1, o1, if_false, Prod.mk.injEq] at hr
        rw [← hr.1]
        intro c hc
        simp only [List.mem_singleton] at hc
        subst hc
        exact h1

/-- When resolving the target ends in an early return, the result is a structured
error, and a subprocess that failed is the last one run, a diff command, and its
error is the detail of the message. -/
theorem resolveTarget_error_calls (w : World) (target : String) (res : CallToolResult)
    (calls : List (List String))
    (hr : resolveTarget w target = (calls, Except.error res)) :
    res.isError = true ∧
    ∀ c ∈ calls, ∀ e, (w.combinedOutput c).err = some e →
      calls.getLast? = some c ∧
      (c = gitDiffHead ∨ c = gitDiffStaged) ∧
      (c = gitDiffHead → res.text = "Failed to get git diff: " ++ e) ∧
      (c = gitDiffStaged → res.text = "Failed to get staged git diff: " ++ e) := by
  have hne : gitDiffHead ≠ gitDiffStaged := by decide
  cases hs : isSentinel w target
  · rw [resolveTarget_not_sentinel w target hs] at hr
    split_ifs at hr
    · split at hr
      · simp only [Prod.mk.injEq, Except.error.injEq] at hr
        rw [← hr.1, ← hr.2]
        simp [newToolResultError]
      · simp at hr
    · simp at hr
  · rw [resolveTarget_sentinel w target hs] at hr
    cases h1 : (w.combinedOutput gitDiffHead).err with
    | some e1 =>
      simp only [h1, Prod.mk.injEq, Except.error.injEq] at hr
      rw [← hr.1, ← hr.2]
      refine ⟨rfl, ?_⟩
      intro c hc e he
      simp only [List.mem_singleton] at hc
      subst hc
      rw [h1] at he
      simp only [Option.some.injEq] at he
      subst he
      simp [newToolResultError, hne]
    | none =>
      by_cases o1 : (w.combinedOutput gitDiffHead).output = ""
      · cases h2 : (w.combinedOutput gitDiffStaged).err with
        | some e2 =>
          simp only [h1, o1, h2, if_true, Prod.mk.injEq, Except.error.injEq] at hr
          rw [← hr.1, ← hr.2]
          refine ⟨rfl, ?_⟩
          intro c hc e he
          simp only [List.mem_cons, List.mem_singleton, List.not_mem_nil, or_false] at hc
          rcases hc with hc | hc
          · subst hc
            rw [h1] at he
            simp at he
          · subst hc
            rw [h2] at he
            simp only [Option.some.injEq] at he
            subst he
            simp [newToolResultError, hne.symm]
        | none =>
          by_cases o2 : (w.combinedOutput gitDiffStaged).output = ""
          · simp only [h1, o1, h2, o2, if_true, Prod.mk.injEq, Except.error.injEq] at hr
            rw [← hr.1, ← hr.2]
            refine ⟨rfl, ?_⟩
            intro c hc e he
            simp only [List.mem_cons, List.mem_singleton, List.not_mem_nil, or_false] at hc
            rcases hc with hc | hc <;> subst hc <;> simp_all
          · simp [h1, o1, h2, o2] at hr
      · simp [h1, o1] at hr

/-- The outcome of the review handler once a review content has been obtained. -/
theorem codexReviewHandler_invoke (w : World) (request : CallToolRequest)
    (target reviewContent : String) (calls : List (List String))
    (ht : request.requireString "target" = some target)
    (hr : resolveTarget w target = (calls, Except.ok reviewContent)) :
    codexReviewHandler w request =
      match (w.combinedOutput (codexCommand "gpt-5-codex"
        (reviewPrompt (request.getString "focus" "code quality, bugs, and best practices")
          reviewContent))).err with
      | some e =>
        ⟨newToolResultError ("Codex review failed: " ++ e ++ "\nOutput: " ++
          (w.combinedOutput (codexCommand "gpt-5-codex"
            (reviewPrompt (request.getString "focus" "code quality, bugs, and best practices")
              reviewContent))).output), none,
          calls ++ [codexCommand "gpt-5-codex"
            (reviewPrompt (request.getString "focus" "code quality, bugs, and best practices")
              reviewContent)]⟩
      | none =>
        ⟨newToolResultText (w.combinedOutput (codexCommand "gpt-5-codex"
            (reviewPrompt (request.getString "focus" "code quality, bugs, and best practices")
              reviewContent))).output, none,
          calls ++ [codexCommand "gpt-5-codex"
            (reviewPrompt (request.getString "focus" "code quality, bugs, and best practices")
              reviewContent)]⟩ := by
  simp only [codexReviewHandler, ht, hr]

theorem includes_middle (a b c d : String) : includes (a ++ b ++ c ++ d) b :=
  ⟨a.data, (c ++ d).data, by simp [String.data_append]⟩

theorem includes_end (a b : String) : includes (a ++ b) b :=
  ⟨a.data, [], by simp [String.data_append]⟩

/-! ## The claims -/

/-- C1: for a review request whose target, trimmed and lower-cased, is `current
changes` or `git diff`, the handler runs `git diff HEAD` first; it runs
`git diff --staged` if and only if the first command succeeded with empty output;
and when the unstaged diff is empty and the staged diff is a non-empty text, the
review content is exactly the staged diff and the assistant is invoked exactly once.
Nothing is assumed about the filesystem, so this holds as well when a file named
like the target exists. -/
theorem review_sentinel_runs_unstaged_then_staged (w : World) (request : CallToolRequest)
    (target : String)
    (ht : request.requireString "target" = some target)
    (hs : toLower w (trimSpace target) = "current changes" ∨
      toLower w (trimSpace target) = "git diff") :
    (codexReviewHandler w request).calls.head? = some gitDiffHead ∧
    (gitDiffStaged ∈ (codexReviewHandler w request).calls ↔
      ((w.combinedOutput gitDiffHead).err = none ∧
        (w.combinedOutput gitDiffHead).output = "")) ∧
    ((w.combinedOutput gitDiffHead).err = none →
      (w.combinedOutput gitDiffHead).output = "" →
      (w.combinedOutput gitDiffStaged).err = none →
      (w.combinedOutput gitDiffStaged).output ≠ "" →
        resolveTarget w target =
          ([gitDiffHead, gitDiffStaged], Except.ok (w.combinedOutput gitDiffStaged).output) ∧
        (codexReviewHandler w request).calls =
          [gitDiffHead, gitDiffStaged,
            codexCommand "gpt-5-codex"
              (reviewPrompt (request.getString "focus" "code quality, bugs, and best practices")
                (w.combinedOutput gitDiffStaged).output)] ∧
        assistantCalls (codexReviewHandler w request).calls = 1) := by
  have hsent := isSentinel_of_eq w target hs
  have hres := resolveTarget_sentinel w target hsent
  have hcases := codexReviewHandler_calls_cases w request target ht
  refine ⟨?_, ?_, ?_⟩
  · rcases hcases with h | ⟨c, _, h⟩ <;> rw [h, hres] <;>
      (split <;> [skip; split] <;> [skip; (split <;> [skip; split]); skip]) <;> rfl
  · rcases hcases with h | ⟨c, _, h⟩ <;> rw [h, hres] <;>
      (split <;> [skip; split] <;> [skip; (split <;> [skip; split]); skip]) <;>
      simp_all [gitDiffStaged, gitDiffHead, codexCommand]
  · intro h1 h2 h3 h4
    have hr : resolveTarget w target =
        ([gitDiffHead, gitDiffStaged], Except.ok (w.combinedOutput gitDiffStaged).output) := by
      rw [hres]; simp [h1, h2, h3, h4]
    have hc := codexReviewHandler_calls w request target _ _ ht hr
    refine ⟨hr, ?_, ?_⟩
    · rw [hc]; rfl
    · rw [hc]; simp [assistantCalls, gitDiffHead, gitDiffStaged, codexCommand]

/-- C1 at the scenario of the specification: no unstaged change, one staged change,
and a file named `current changes` in the working directory. -/
theorem review_sentinel_runs_unstaged_then_staged_witness :
    fileExists stagedWorld "Current Changes" = false ∧
    fileExists stagedWorld "current changes" = true ∧
    (codexReviewHandler stagedWorld ⟨[("target", ArgValue.str "current changes")]⟩).calls =
      [gitDiffHead, gitDiffStaged,
        codexCommand "gpt-5-codex"
          (reviewPrompt "code quality, bugs, and best practices" stagedDiff)] ∧
    assistantCalls
      (codexReviewHandler stagedWorld ⟨[("target", ArgValue.str "current changes")]⟩).calls = 1 :=
  ⟨by decide, by decide,
    ((review_sentinel_runs_unstaged_then_staged stagedWorld
      ⟨[("target", ArgValue.str "current changes")]⟩ "current changes" (by decide)
      (Or.inl (by decide))).2.2 (by decide) (by decide) (by decide) (by decide)).2.1,
    ((review_sentinel_runs_unstaged_then_staged stagedWorld
      ⟨[("target", ArgValue.str "current changes")]⟩ "current changes" (by decide)
      (Or.inl (by decide))).2.2 (by decide) (by decide) (by decide) (by decide)).2.2⟩

/-- C2: for a review request with a sentinel target, when both `git diff HEAD` and
`git diff --staged` succeed with empty output the handler returns the structured
error `No git changes found to review` (with a nil Go error) and the assistant is
never invoked: the two diff commands are the only subprocesses run. -/
theorem review_sentinel_no_changes (w : World) (request : CallToolRequest) (target : String)
    (ht : request.requireString "target" = some target)
    (hs : toLower w (trimSpace target) = "current changes" ∨
      toLower w (trimSpace target) = "git diff")
    (hu : w.combinedOutput gitDiffHead = ⟨"", none⟩)
    (hg : w.combinedOutput gitDiffStaged = ⟨"", none⟩) :
    (codexReviewHandler w request).result =
      newToolResultError "No git changes found to review" ∧
    (codexReviewHandler w request).result.isError = true ∧
    (codexReviewHandler w request).err = none ∧
    (codexReviewHandler w request).calls = [gitDiffHead, gitDiffStaged] ∧
    assistantCalls (codexReviewHandler w request).calls = 0 := by
  have hr : resolveTarget w target =
      ([gitDiffHead, gitDiffStaged],
        Except.error (newToolResultError "No git changes found to review")) := by
    rw [resolveTarget_sentinel w target (isSentinel_of_eq w target hs)]
    simp [hu, hg]
  rw [codexReviewHandler_early w request target _ _ ht hr]
  simp [newToolResultError, assistantCalls, gitDiffHead, gitDiffStaged]

/-- C2 on a clean work tree, with the target written ` Git Diff `. -/
theorem review_sentinel_no_changes_witness :
    toLower cleanWorld (trimSpace " Git Diff\n") = "git diff" ∧
    (codexReviewHandler cleanWorld ⟨[("target", ArgValue.str " Git Diff\n")]⟩).result =
      newToolResultError "No git changes found to review" ∧
    assistantCalls
      (codexReviewHandler cleanWorld ⟨[("target", ArgValue.str " Git Diff\n")]⟩).calls = 0 :=
  ⟨by decide,
    (review_sentinel_no_changes cleanWorld ⟨[("target", ArgValue.str " Git Diff\n")]⟩
      " Git Diff\n" (by decide) (Or.inr (by decide)) (by decide) (by decide)).1,
    (review_sentinel_no_changes cleanWorld ⟨[("target", ArgValue.str " Git Diff\n")]⟩
      " Git Diff\n" (by decide) (Or.inr (by decide)) (by decide) (by decide)).2.2.2.2⟩

/-- C3: for a non-empty prompt and an ask request whose context is absent or the
empty string, the only subprocess is the assistant and the final positional
argument of its invocation is the prompt exactly. -/
theorem ask_without_context_sends_prompt (w : World) (request : CallToolRequest)
    (prompt : String)
    (hp : request.requireString "prompt" = some prompt)
    (_hne : prompt ≠ "")
    (hc : request.lookup "context" = none ∨
      request.lookup "context" = some (ArgValue.str "")) :
    (askCodexHandler w request).calls =
      [["codex", "exec", "--model", request.getString "model" "gpt-5-codex", "--", prompt]] ∧
    ((askCodexHandler w request).calls.head?.bind List.getLast?) = some prompt := by
  have hctx : request.getString "context" "" = "" := by
    rcases hc with h | h
    · exact getString_of_lookup_none request "context" "" h
    · exact getString_of_lookup_str request "context" "" "" h
  have hcalls := askCodexHandler_calls w request prompt hp
  rw [hctx] at hcalls
  simp only [ne_eq, not_true_eq_false, if_false] at hcalls
  rw [hcalls]
  simp [codexCommand]

/-- C3 at the scenario of the specification: prompt `Is this safe?`, context `""`. -/
theorem ask_without_context_sends_prompt_witness :
    (askCodexHandler stagedWorld
      ⟨[("prompt", ArgValue.str "Is this safe?"), ("context", ArgValue.str "")]⟩).calls =
      [["codex", "exec", "--model", "gpt-5-codex", "--", "Is this safe?"]] :=
  (ask_without_context_sends_prompt stagedWorld
    ⟨[("prompt", ArgValue.str "Is this safe?"), ("context", ArgValue.str "")]⟩
    "Is this safe?" (by decide) (by decide) (Or.inr (by decide))).1

/-- C10: an ask request without a `prompt` field gets the structured error
`prompt is required`, with a nil Go error and no subprocess; a review request
without a `target` field gets the structured error `target is required`, with a
nil Go error and no subprocess. -/
theorem missing_required_field (w : World) (request : CallToolRequest) :
    (request.lookup "prompt" = none →
      askCodexHandler w request = ⟨⟨"prompt is required", true⟩, none, []⟩) ∧
    (request.lookup "target" = none →
      codexReviewHandler w request = ⟨⟨"target is required", true⟩, none, []⟩) := by
  constructor
  · intro h
    simp [askCodexHandler, requireString_of_lookup_none request "prompt" h, newToolResultError]
  · intro h
    simp [codexReviewHandler, requireString_of_lookup_none request "target" h,
      newToolResultError]

/-- C10 on a request that carries only a `context` field. -/
theorem missing_required_field_witness :
    askCodexHandler brokenWorld ⟨[("context", ArgValue.str "notes.txt")]⟩ =
      ⟨⟨"prompt is required", true⟩, none, []⟩ ∧
    codexReviewHandler brokenWorld ⟨[("context", ArgValue.str "notes.txt")]⟩ =
      ⟨⟨"target is required", true⟩, none, []⟩ :=
  ⟨(missing_required_field brokenWorld ⟨[("context", ArgValue.str "notes.txt")]⟩).1 (by decide),
    (missing_required_field brokenWorld ⟨[("context", ArgValue.str "notes.txt")]⟩).2 (by decide)⟩

/-- C4, as stated, fails: the context `./notes.txt` names (after normalisation, as
`notes.txt`) an existing, readable, non-directory file, and the instruction labels
the contents with the context string as given, not with the normalised path. -/
theorem ask_file_context_label_counterexample :
    filepathClean "./notes.txt" = "notes.txt" ∧
    fileExists stagedWorld "./notes.txt" = true ∧
    stagedWorld.readFile "./notes.txt" = Except.ok "hello\n" ∧
    stagedWorld.readFile (filepathClean "./notes.txt") = Except.ok "hello\n" ∧
    (askCodexHandler stagedWorld
      ⟨[("prompt", ArgValue.str "Is this safe?"), ("context", ArgValue.str "./notes.txt")]⟩).calls =
      [["codex", "exec", "--model", "gpt-5-codex", "--",
        "Context: File: ./notes.txt\n\nhello\n\n\nQuestion: Is this safe?"]] ∧
    (askCodexHandler stagedWorld
      ⟨[("prompt", ArgValue.str "Is this safe?"), ("context", ArgValue.str "./notes.txt")]⟩).calls ≠
      [["codex", "exec", "--model", "gpt-5-codex", "--",
        "Context: File: " ++ filepathClean "./notes.txt" ++ "\n\n" ++ "hello\n" ++
          "\n\nQuestion: " ++ "Is this safe?"]] := by
  decide

/-- C4, amended: for an ask request whose non-empty context passes the existence
check (its normalised path can be stat-ed and is not a directory) and is read
without error from the path as given, the instruction is
`Context: File: <context>\n\n<file contents>\n\nQuestion: <prompt>`, where the label is
the context string exactly as given and the contents are the whole file. -/
theorem ask_file_context_instruction (w : World) (request : CallToolRequest)
    (prompt context content : String)
    (hp : request.requireString "prompt" = some prompt)
    (hc : request.lookup "context" = some (ArgValue.str context))
    (hne : context ≠ "")
    (hstat : w.stat (filepathClean context) = some false)
    (hread : w.readFile context = Except.ok content) :
    expandContext w context = "File: " ++ context ++ "\n\n" ++ content ∧
    (askCodexHandler w request).calls =
      [["codex", "exec", "--model", request.getString "model" "gpt-5-codex", "--",
        "Context: File: " ++ context ++ "\n\n" ++ content ++ "\n\nQuestion: " ++ prompt]] := by
  have hex : expandContext w context = "File: " ++ context ++ "\n\n" ++ content := by
    simp [expandContext, fileExists, hstat, hread]
  refine ⟨hex, ?_⟩
  rw [askCodexHandler_calls w request prompt hp,
    getString_of_lookup_str request "context" "" context hc, hex]
  simp only [ne_eq, hne, not_false_eq_true, if_true, codexCommand, String.append_assoc]
  rw [← String.append_assoc "Context: " "File: "]
  rfl

/-- C4, amended, on the file `notes.txt` named as `./notes.txt`. -/
theorem ask_file_context_instruction_witness :
    stagedWorld.stat (filepathClean "./notes.txt") = some false ∧
    (askCodexHandler stagedWorld
      ⟨[("prompt", ArgValue.str "Is this safe?"), ("context", ArgValue.str "./notes.txt"),
        ("model", ArgValue.str "gpt-5")]⟩).calls =
      [["codex", "exec", "--model", "gpt-5", "--",
        "Context: File: " ++ "./notes.txt" ++ "\n\n" ++ "hello\n" ++ "\n\nQuestion: " ++
          "Is this safe?"]] :=
  ⟨by decide,
    (ask_file_context_instruction stagedWorld
      ⟨[("prompt", ArgValue.str "Is this safe?"), ("context", ArgValue.str "./notes.txt"),
        ("model", ArgValue.str "gpt-5")]⟩
      "Is this safe?" "./notes.txt" "hello\n" (by decide) (by decide) (by decide) (by decide)
      (by decide)).2⟩

/-- C5: `expandContext` is a total function to strings, and for every string whose
normalised path cannot be stat-ed, or is a directory, or whose read fails, it
returns the string unchanged; so for every such non-empty context the instruction
of an ask request is exactly `Context: <context>\n\nQuestion: <prompt>`. -/
theorem expandContext_falls_back_to_literal (w : World) (context : String)
    (h : w.stat (filepathClean context) = none ∨
      w.stat (filepathClean context) = some true ∨
      ∃ e, w.readFile context = Except.error e) :
    expandContext w context = context ∧
    ∀ (request : CallToolRequest) (prompt : String),
      request.requireString "prompt" = some prompt →
      request.lookup "context" = some (ArgValue.str context) →
      context ≠ "" →
      (askCodexHandler w request).calls =
        [["codex", "exec", "--model", request.getString "model" "gpt-5-codex", "--",
          "Context: " ++ context ++ "\n\nQuestion: " ++ prompt]] := by
  have hex : expandContext w context = context := by
    rcases h with h | h | ⟨e, h⟩
    · simp [expandContext, fileExists, h]
    · simp [expandContext, fileExists, h]
    · simp only [expandContext, h]
      split <;> rfl
  refine ⟨hex, ?_⟩
  intro request prompt hp hc hne
  rw [askCodexHandler_calls w request prompt hp,
    getString_of_lookup_str request "context" "" context hc, hex]
  simp [hne, codexCommand]

/-- C5 on a directory (`docs`), with a prompt. -/
theorem expandContext_falls_back_to_literal_witness :
    stagedWorld.stat (filepathClean "docs") = some true ∧
    expandContext stagedWorld "docs" = "docs" ∧
    (askCodexHandler stagedWorld
      ⟨[("prompt", ArgValue.str "What is here?"), ("context", ArgValue.str "docs")]⟩).calls =
      [["codex", "exec", "--model", "gpt-5-codex", "--",
        "Context: " ++ "docs" ++ "\n\nQuestion: " ++ "What is here?"]] :=
  ⟨by decide,
    (expandContext_falls_back_to_literal stagedWorld "docs" (Or.inr (Or.inl (by decide)))).1,
    (expandContext_falls_back_to_literal stagedWorld "docs" (Or.inr (Or.inl (by decide)))).2
      ⟨[("prompt", ArgValue.str "What is here?"), ("context", ArgValue.str "docs")]⟩
      "What is here?" (by decide) (by decide) (by decide)⟩

/-- The file and literal branches of the review handler, in terms of its own test
`fileExists` (the stat of the cleaned path): for a target that is not a sentinel
keyword, (1) when `fileExists` holds and the target is read without error, no diff
command is run and the review content is `File: <target>\n\n<file body>` with the
path exactly as given; (2) when `fileExists` fails, no diff command is run and the
review content is the target string verbatim, neither trimmed nor lower-cased. -/
theorem review_file_or_literal (w : World) (request : CallToolRequest) (target : String)
    (ht : request.requireString "target" = some target)
    (hs : ¬ (toLower w (trimSpace target) = "current changes" ∨
      toLower w (trimSpace target) = "git diff")) :
    (∀ body, fileExists w target = true → w.readFile target = Except.ok body →
      resolveTarget w target = ([], Except.ok ("File: " ++ target ++ "\n\n" ++ body)) ∧
      (codexReviewHandler w request).calls =
        [codexCommand "gpt-5-codex"
          (reviewPrompt (request.getString "focus" "code quality, bugs, and best practices")
            ("File: " ++ target ++ "\n\n" ++ body))]) ∧
    (fileExists w target = false →
      resolveTarget w target = ([], Except.ok target) ∧
      (codexReviewHandler w request).calls =
        [codexCommand "gpt-5-codex"
          (reviewPrompt (request.getString "focus" "code quality, bugs, and best practices")
            target)]) := by
  have hsent : isSentinel w target = false := by
    cases h : isSentinel w target
    · rfl
    · exfalso
      apply hs
      simpa [isSentinel] using h
  have hres := resolveTarget_not_sentinel w target hsent
  constructor
  · intro body hex hread
    have hr : resolveTarget w target =
        ([], Except.ok ("File: " ++ target ++ "\n\n" ++ body)) := by
      rw [hres]; simp [hex, hread]
    exact ⟨hr, by rw [codexReviewHandler_calls w request target _ _ ht hr]; rfl⟩
  · intro hno
    have hr : resolveTarget w target = ([], Except.ok target) := by
      rw [hres]; simp [hno]
    exact ⟨hr, by rw [codexReviewHandler_calls w request target _ _ ht hr]; rfl⟩

/-- The two branches at the scenario of the specification (`/nonexistent/path.go`)
and on the existing file `notes.txt`. -/
theorem review_file_or_literal_witness :
    fileExists stagedWorld "/nonexistent/path.go" = false ∧
    resolveTarget stagedWorld "/nonexistent/path.go" =
      ([], Except.ok "/nonexistent/path.go") ∧
    resolveTarget stagedWorld "notes.txt" =
      ([], Except.ok ("File: " ++ "notes.txt" ++ "\n\n" ++ "hello\n")) :=
  ⟨by decide,
    ((review_file_or_literal stagedWorld ⟨[("target", ArgValue.str "/nonexistent/path.go")]⟩
      "/nonexistent/path.go" (by decide) (by decide)).2 (by decide)).1,
    ((review_file_or_literal stagedWorld ⟨[("target", ArgValue.str "notes.txt")]⟩
      "notes.txt" (by decide) (by decide)).1 "hello\n" (by decide) (by decide)).1⟩

/-- C6: the review handler on the target `nodir/../notes.txt`, in a working directory
that holds a regular file `notes.txt` and no directory `nodir`. The target is not a
sentinel keyword and the path as given does not exist: its stat and its read fail.
`fileExists` stats the cleaned path `notes.txt` instead and answers true, so the
handler takes the file branch, the read of the path as given fails, and the result
is the structured error `Failed to read file ...` with no subprocess run: the target
is not reviewed as literal text and the assistant is not invoked. A non-existent
path whose cleaned form does not exist either (`/nonexistent/path.go`) is reviewed
verbatim. -/
theorem review_missing_path_read_error :
    isSentinel stagedWorld "nodir/../notes.txt" = false ∧
    stagedWorld.stat "nodir/../notes.txt" = none ∧
    stagedWorld.readFile "nodir/../notes.txt" =
      Except.error "open nodir/../notes.txt: no such file or directory" ∧
    filepathClean "nodir/../notes.txt" = "notes.txt" ∧
    fileExists stagedWorld "nodir/../notes.txt" = true ∧
    codexReviewHandler stagedWorld ⟨[("target", ArgValue.str "nodir/../notes.txt")]⟩ =
      ⟨⟨"Failed to read file nodir/../notes.txt: " ++
          "open nodir/../notes.txt: no such file or directory", true⟩, none, []⟩ ∧
    (codexReviewHandler stagedWorld ⟨[("target", ArgValue.str "nodir/../notes.txt")]⟩).calls ≠
      [codexCommand "gpt-5-codex"
        (reviewPrompt "code quality, bugs, and best practices" "nodir/../notes.txt")] ∧
    (codexReviewHandler stagedWorld ⟨[("target", ArgValue.str "/nonexistent/path.go")]⟩).calls =
      [codexCommand "gpt-5-codex"
        (reviewPrompt "code quality, bugs, and best practices" "/nonexistent/path.go")] := by
  decide

/-- C8: a read failure after a successful existence check is handled differently by
mode. In the review handler (target not a sentinel) the result is the structured
error `Failed to read file <target>: <error>` with a nil Go error and no subprocess
at all, so the assistant is not invoked; `expandContext` returns the string itself,
and an ask request with it as context sends it to the assistant as literal text. -/
theorem read_failure_by_mode (w : World) (path e : String)
    (hex : fileExists w path = true)
    (hread : w.readFile path = Except.error e) :
    (∀ request : CallToolRequest, request.requireString "target" = some path →
      isSentinel w path = false →
      codexReviewHandler w request =
        ⟨⟨"Failed to read file " ++ path ++ ": " ++ e, true⟩, none, []⟩) ∧
    expandContext w path = path ∧
    (∀ (request : CallToolRequest) (prompt : String),
      request.requireString "prompt" = some prompt →
      request.lookup "context" = some (ArgValue.str path) →
      path ≠ "" →
      (askCodexHandler w request).calls =
        [codexCommand (request.getString "model" "gpt-5-codex")
          ("Context: " ++ path ++ "\n\nQuestion: " ++ prompt)]) := by
  have hexp : expandContext w path = path := by
    simp [expandContext, hex, hread]
  refine ⟨?_, hexp, ?_⟩
  · intro request ht hs
    have hr : resolveTarget w path =
        ([], Except.error (newToolResultError ("Failed to read file " ++ path ++ ": " ++ e))) := by
      rw [resolveTarget_not_sentinel w path hs]; simp [hex, hread]
    rw [codexReviewHandler_early w request path _ _ ht hr]
    rfl
  · intro request prompt hp hc hne
    rw [askCodexHandler_calls w request prompt hp,
      getString_of_lookup_str request "context" "" path hc, hexp]
    simp [hne]

/-- C8 on the unreadable file `secret.txt`. -/
theorem read_failure_by_mode_witness :
    fileExists brokenWorld "secret.txt" = true ∧
    codexReviewHandler brokenWorld ⟨[("target", ArgValue.str "secret.txt")]⟩ =
      ⟨⟨"Failed to read file " ++ "secret.txt" ++ ": " ++ "open secret.txt: permission denied",
        true⟩, none, []⟩ ∧
    expandContext brokenWorld "secret.txt" = "secret.txt" :=
  ⟨by decide,
    (read_failure_by_mode brokenWorld "secret.txt" "open secret.txt: permission denied"
      (by decide) (by decide)).1 ⟨[("target", ArgValue.str "secret.txt")]⟩ (by decide) (by decide),
    (read_failure_by_mode brokenWorld "secret.txt" "open secret.txt: permission denied"
      (by decide) (by decide)).2.1⟩

/-- C9: a review request that reaches invocation runs, after the commands of the
target resolution, the argument vector `codex exec --model gpt-5-codex -- P` with
`P = Please review the following code with focus on: <focus>. Provide specific,
actionable feedback.\n\n<review content>`; the focus is
`code quality, bugs, and best practices` when the field is absent; and the whole
outcome of the handler depends on the request through its `target` and `focus`
fields only, so not on a `model` field. -/
theorem review_invocation_fixed_model (w : World) (request : CallToolRequest)
    (target reviewContent : String) (calls : List (List String))
    (ht : request.requireString "target" = some target)
    (hr : resolveTarget w target = (calls, Except.ok reviewContent)) :
    (codexReviewHandler w request).calls =
      calls ++ [["codex", "exec", "--model", "gpt-5-codex", "--",
        "Please review the following code with focus on: " ++
          request.getString "focus" "code quality, bugs, and best practices" ++
          ". Provide specific, actionable feedback.\n\n" ++ reviewContent]] ∧
    (request.lookup "focus" = none →
      request.getString "focus" "code quality, bugs, and best practices" =
        "code quality, bugs, and best practices") ∧
    (∀ other : CallToolRequest,
      other.lookup "target" = request.lookup "target" →
      other.lookup "focus" = request.lookup "focus" →
      codexReviewHandler w other = codexReviewHandler w request) := by
  refine ⟨?_, ?_, ?_⟩
  · rw [codexReviewHandler_calls w request target reviewContent calls ht hr]
    rfl
  · intro h
    exact getString_of_lookup_none request "focus" _ h
  · intro other h1 h2
    simp only [codexReviewHandler, CallToolRequest.requireString, CallToolRequest.getString,
      h1, h2]

/-- C9 on a literal snippet, with and without a `model` field in the request. -/
theorem review_invocation_fixed_model_witness :
    (codexReviewHandler stagedWorld ⟨[("target", ArgValue.str "x := 1")]⟩).calls =
      [] ++ [["codex", "exec", "--model", "gpt-5-codex", "--",
        "Please review the following code with focus on: " ++
          "code quality, bugs, and best practices" ++
          ". Provide specific, actionable feedback.\n\n" ++ "x := 1"]] ∧
    codexReviewHandler stagedWorld
        ⟨[("model", ArgValue.str "gpt-5"), ("target", ArgValue.str "x := 1")]⟩ =
      codexReviewHandler stagedWorld ⟨[("target", ArgValue.str "x := 1")]⟩ :=
  ⟨(review_invocation_fixed_model stagedWorld ⟨[("target", ArgValue.str "x := 1")]⟩
      "x := 1" "x := 1" [] (by decide) (by decide)).1,
    (review_invocation_fixed_model stagedWorld ⟨[("target", ArgValue.str "x := 1")]⟩
      "x := 1" "x := 1" [] (by decide) (by decide)).2.2
      ⟨[("model", ArgValue.str "gpt-5"), ("target", ArgValue.str "x := 1")]⟩
      (by decide) (by decide)⟩

/-- C7: the review handler on the target `git diff` outside a git repository, where
`git diff HEAD` fails with `exit status 128` after printing
`fatal: not a git repository`. The result is a structured error with a nil Go error,
but its text is `Failed to get git diff: exit status 128`: the captured output is
dropped. In the same environment the failure of the assistant, in the same handler
and in the ask handler, is reported with the error detail and the captured output. -/
theorem git_failure_drops_output :
    brokenWorld.combinedOutput gitDiffHead =
      ⟨"fatal: not a git repository\n", some "exit status 128"⟩ ∧
    codexReviewHandler brokenWorld ⟨[("target", ArgValue.str "git diff")]⟩ =
      ⟨⟨"Failed to get git diff: exit status 128", true⟩, none, [gitDiffHead]⟩ ∧
    ¬ includes (codexReviewHandler brokenWorld ⟨[("target", ArgValue.str "git diff")]⟩).result.text
      (brokenWorld.combinedOutput gitDiffHead).output ∧
    (codexReviewHandler brokenWorld ⟨[("target", ArgValue.str "x := 1")]⟩).result =
      ⟨"Codex review failed: exit status 1\nOutput: stream error\n", true⟩ ∧
    includes (codexReviewHandler brokenWorld ⟨[("target", ArgValue.str "x := 1")]⟩).result.text
      "stream error\n" ∧
    (askCodexHandler brokenWorld ⟨[("prompt", ArgValue.str "Is this safe?")]⟩).result =
      ⟨"Codex execution failed: exit status 1\nOutput: stream error\n", true⟩ ∧
    includes (askCodexHandler brokenWorld ⟨[("prompt", ArgValue.str "Is this safe?")]⟩).result.text
      "stream error\n" := by
  decide

/-- What the handlers return when a subprocess fails: a structured error result
with a nil Go error, the failed subprocess being the last one run, and a text that
includes the error detail. When the subprocess is the assistant the text is
`Codex execution failed: <error>\nOutput: <output>` (ask) or
`Codex review failed: <error>\nOutput: <output>` (review), with the captured output;
when it is a diff command the text returned by lines 115 and 122 is
`Failed to get git diff: <error>` or `Failed to get staged git diff: <error>`. -/
theorem subprocess_failure_is_structured_error (w : World) (request : CallToolRequest)
    (c : List String) (e : String)
    (herr : (w.combinedOutput c).err = some e) :
    (c ∈ (askCodexHandler w request).calls →
      askCodexHandler w request =
        ⟨⟨"Codex execution failed: " ++ e ++ "\nOutput: " ++ (w.combinedOutput c).output, true⟩,
          none, [c]⟩ ∧
      c.head? = some "codex" ∧
      includes (askCodexHandler w request).result.text e ∧
      includes (askCodexHandler w request).result.text (w.combinedOutput c).output) ∧
    (c ∈ (codexReviewHandler w request).calls →
      (codexReviewHandler w request).result.isError = true ∧
      (codexReviewHandler w request).err = none ∧
      (codexReviewHandler w request).calls.getLast? = some c ∧
      includes (codexReviewHandler w request).result.text e ∧
      (c = gitDiffHead →
        (codexReviewHandler w request).result.text = "Failed to get git diff: " ++ e) ∧
      (c = gitDiffStaged →
        (codexReviewHandler w request).result.text = "Failed to get staged git diff: " ++ e) ∧
      (c.head? = some "codex" →
        (codexReviewHandler w request).result.text =
          "Codex review failed: " ++ e ++ "\nOutput: " ++ (w.combinedOutput c).output ∧
        includes (codexReviewHandler w request).result.text (w.combinedOutput c).output)) := by
  constructor
  · intro hmem
    cases hp : request.requireString "prompt" with
    | none => simp [askCodexHandler, hp] at hmem
    | some prompt =>
      rw [askCodexHandler_calls w request prompt hp, List.mem_singleton] at hmem
      have hh : askCodexHandler w request =
          ⟨⟨"Codex execution failed: " ++ e ++ "\nOutput: " ++ (w.combinedOutput c).output,
            true⟩, none, [c]⟩ := by
        subst hmem
        simp only [askCodexHandler, hp, herr, newToolResultError]
      rw [hh]
      refine ⟨rfl, by rw [hmem]; rfl, ?_, ?_⟩
      · exact includes_middle "Codex execution failed: " e _ _
      · exact includes_end _ _
  · intro hmem
    cases ht : request.requireString "target" with
    | none => simp [codexReviewHandler, ht] at hmem
    | some target =>
      rcases hr : resolveTarget w target with ⟨calls, res | content⟩
      · rw [codexReviewHandler_early w request target res calls ht hr] at hmem ⊢
        obtain ⟨hisErr, h⟩ := resolveTarget_error_calls w target res calls hr
        obtain ⟨hl, hor, hh, hst⟩ := h c hmem e herr
        refine ⟨hisErr, rfl, hl, ?_, hh, hst, ?_⟩
        · rcases hor with hc | hc
          · show includes res.text e
            rw [hh hc]
            exact includes_end _ _
          · show includes res.text e
            rw [hst hc]
            exact includes_end _ _
        · intro hcodex
          rcases hor with hc | hc <;> rw [hc] at hcodex <;>
            simp [gitDiffHead, gitDiffStaged] at hcodex
      · rw [codexReviewHandler_calls w request target content calls ht hr, List.mem_append,
          List.mem_singleton] at hmem
        rcases hmem with hmem | hmem
        · have := resolveTarget_ok_calls w target content calls hr c hmem
          rw [this] at herr
          simp at herr
        · have hh : codexReviewHandler w request =
              ⟨⟨"Codex review failed: " ++ e ++ "\nOutput: " ++ (w.combinedOutput c).output,
                true⟩, none, calls ++ [c]⟩ := by
            subst hmem
            rw [codexReviewHandler_invoke w request target content calls ht hr]
            simp only [herr, newToolResultError]
          rw [hh]
          refine ⟨rfl, rfl, by simp, ?_, ?_, ?_, ?_⟩
          · exact includes_middle "Codex review failed: " e _ _
          · intro hc
            rw [hc] at hmem
            simp [gitDiffHead, codexCommand] at hmem
          · intro hc
            rw [hc] at hmem
            simp [gitDiffStaged, codexCommand] at hmem
          · intro _
            exact ⟨rfl, includes_end _ _⟩

/-- The failure results where the assistant fails (ask and review of a snippet) and
where `git diff HEAD` fails. -/
theorem subprocess_failure_is_structured_error_witness :
    askCodexHandler brokenWorld ⟨[("prompt", ArgValue.str "Is this safe?")]⟩ =
      ⟨⟨"Codex execution failed: " ++ "exit status 1" ++ "\nOutput: " ++ "stream error\n", true⟩,
        none, [codexCommand "gpt-5-codex" "Is this safe?"]⟩ ∧
    (codexReviewHandler brokenWorld ⟨[("target", ArgValue.str "git diff")]⟩).result.text =
      "Failed to get git diff: " ++ "exit status 128" ∧
    (codexReviewHandler brokenWorld ⟨[("target", ArgValue.str "x := 1")]⟩).result.text =
      "Codex review failed: " ++ "exit status 1" ++ "\nOutput: " ++ "stream error\n" :=
  ⟨((subprocess_failure_is_structured_error brokenWorld
      ⟨[("prompt", ArgValue.str "Is this safe?")]⟩
      (codexCommand "gpt-5-codex" "Is this safe?") "exit status 1" (by decide)).1
      (by decide)).1,
    ((subprocess_failure_is_structured_error brokenWorld
      ⟨[("target", ArgValue.str "git diff")]⟩ gitDiffHead "exit status 128" (by decide)).2
      (by decide)).2.2.2.2.1 rfl,
    (((subprocess_failure_is_structured_error brokenWorld
      ⟨[("target", ArgValue.str "x := 1")]⟩
      (codexCommand "gpt-5-codex"
        (reviewPrompt "code quality, bugs, and best practices" "x := 1"))
      "exit status 1" (by decide)).2 (by decide)).2.2.2.2.2.2 (by decide)).1⟩

end CodexConsultant
